import Mathlib

/-!
Verification of the multi-agent collaboration orchestrator (`src/main.py`,
`src/helper_functions.py`). The Python functions `validate_message`,
`should_continue`, the agent node produced by `create_agent_node`, and the
`human_feedback` node are embedded as executable Lean definitions over the
same data: the message log is a list of raw strings of the form
`"Speaker: text"`, exactly as the Python code stores them, and all string
inspection (substring search, splitting at the first occurrence of a
pattern, lower-casing, trimming) is defined character-by-character to match
the Python `in`, `split`, `lower`, `strip` and `replace` operations.

The external LLM collaborators (`ChatOpenAI.invoke` for generation,
`validate_final_answer_with_llm` for final-answer format validation) are
out-of-scope I/O capabilities; their outputs appear as explicit oracle
arguments (`content0` for the generated text, `llmV` for the format
validator), so every theorem quantifies over their behaviour.
-/

/-! ## Character-level string primitives (Python `in`, `split`, `lower`, `strip`, `replace`) -/

/-- `startsList pat l` is true when `pat` is an initial segment of `l`
(Python `str.startswith` at the character level). -/
def startsList (pat l : List Char) : Bool :=
  match pat, l with
  | [], _ => true
  | _ :: _, [] => false
  | a :: as, b :: bs => a == b && startsList as bs

/-- `containsSub pat l` is true when `pat` occurs as a contiguous block of
`l` (Python `pat in s`). -/
def containsSub (pat l : List Char) : Bool :=
  match l with
  | [] => pat.isEmpty
  | _ :: rest => startsList pat l || containsSub pat rest

/-- Python `pat in s` on strings. -/
def strContains (s pat : String) : Bool :=
  containsSub pat.data s.data

/-- Python `s.startswith(pat)` on strings. -/
def strStarts (s pat : String) : Bool :=
  startsList pat.data s.data

/-- The characters of `l` strictly before the first occurrence of `pat`
(the whole of `l` when `pat` does not occur): Python `s.split(pat)[0]`
for a non-empty `pat`. -/
def cutBeforeAux (pat : List Char) : List Char → List Char
  | [] => []
  | c :: rest => if startsList pat (c :: rest) then [] else c :: cutBeforeAux pat rest

/-- Python `s.split(pat)[0]` for non-empty `pat`. -/
def cutBefore (pat s : String) : String :=
  ⟨cutBeforeAux pat.data s.data⟩

/-- Python `s.lower()` (ASCII case folding, which covers every string the
program compares). -/
def lowerStr (s : String) : String :=
  ⟨s.data.map Char.toLower⟩

/-- Python `s.strip()`: remove leading and trailing whitespace. -/
def trimStr (s : String) : String :=
  ⟨(((s.data.dropWhile Char.isWhitespace).reverse.dropWhile Char.isWhitespace).reverse)⟩

/-- Remove every (leftmost, non-overlapping) occurrence of `pat`,
fuel-indexed so that the recursion is structural; with `fuel ≥ l.length`
and `pat ≠ []` this is Python `s.replace(pat, "")`. -/
def removeAllAux (pat : List Char) : Nat → List Char → List Char
  | _, [] => []
  | 0, l => l
  | fuel + 1, c :: rest =>
    if startsList pat (c :: rest) then
      removeAllAux pat fuel (List.drop pat.length (c :: rest))
    else
      c :: removeAllAux pat fuel rest

/-- Python `s.replace(pat, "")` for non-empty `pat`. -/
def removeAll (pat s : String) : String :=
  if pat.data.isEmpty then s else ⟨removeAllAux pat.data s.data.length s.data⟩

/-- Python `s.split(":")[0]`: the part of `s` before the first colon
(all of `s` when there is none). -/
def splitColonFst (s : String) : String :=
  ⟨s.data.takeWhile (fun c => c != ':')⟩

/-- Python `s.split(":", 1)[1]` as an `Option`: the part after the first
colon, or `none` (an `IndexError`) when `s` has no colon. -/
def afterFirstColon (s : String) : Option String :=
  match s.data.dropWhile (fun c => c != ':') with
  | [] => none
  | _ :: rest => some ⟨rest⟩

/-! ## Data model (`src/main.py` lines 24-35, `src/helper_functions.py` lines 11, 92-95) -/

/-- `FINAL_ANSWER_MARKER` from `helper_functions.py`. -/
def FINAL_ANSWER_MARKER : String := "[FINAL_ANSWER]"

/-- `MAX_ITERATIONS` from `main.py`. -/
def MAX_ITERATIONS : Nat := 20

/-- `MAX_ERRORS` from `main.py`: consecutive-error ceiling of the outer loop. -/
def MAX_ERRORS : Nat := 3

/-- `AgentConfig` from `helper_functions.py`. -/
structure AgentConfig where
  name : String
  system_prompt : String
  temperature : Float

/-- `AgentState` from `main.py`. `csv_file` starts as `None` and is set by
the first successful `save_conversation_to_csv` call. -/
structure AgentState where
  messages : List String
  phase : Nat
  iteration : Nat
  csv_file : Option String
  agents : List AgentConfig

/-! ## The Validation Gate: `validate_message` (`main.py` lines 37-100) -/

/-- The role-leakage truncation of `validate_message` (`main.py` lines
50-62): for each other agent, if `"{other}:"` occurs, keep only the
(stripped) part before it; then the same for the `"**{other}:**"` form. -/
def roleClean (content agent_name : String) (all_agent_names : List String) : String :=
  let other_agents := all_agent_names.filter (fun n => n ≠ agent_name)
  let c1 := other_agents.foldl
    (fun c n => if strContains c (n ++ ":") then trimStr (cutBefore (n ++ ":") c) else c)
    content
  let indicators := other_agents.map (fun n => "**" ++ n ++ ":**")
  indicators.foldl
    (fun c ind => if strContains c ind then trimStr (cutBefore ind c) else c)
    c1

/-- A log entry that is not validation feedback, human feedback, or the
user query (`main.py` line 67). -/
def isSubstantive (m : String) : Bool :=
  !(strStarts m "Validation Feedback:") && !(strStarts m "Human:") && !(strStarts m "User Query:")

/-- The up-to-three most recent substantive log entries (`main.py`
lines 64-70): walk the log in reverse, keep non-excluded entries, stop
after three. -/
def voteMessages (messages : List String) : List String :=
  (messages.reverse.filter isSubstantive).take 3

/-- Python `"i vote to submit" in msg.lower()`. -/
def hasVote (m : String) : Bool :=
  strContains (lowerStr m) "i vote to submit"

/-- The consensus test used at `main.py` lines 75 and 97: exactly three
collected messages, each containing the vote phrase case-insensitively. -/
def isConsensus (messages : List String) : Bool :=
  (voteMessages messages).length == 3 && (voteMessages messages).all hasVote

/-- `validate_message` (`main.py` lines 37-100). `llmV` is the external
`validate_final_answer_with_llm` collaborator (`helper_functions.py`
lines 13-90), returning `(is_valid, content, feedback)`; a Python `None`
feedback interpolated into the f-string prints as `"None"`. -/
def validate_message (llmV : String → String → Bool × String × Option String)
    (content0 agent_name : String) (all_agent_names : List String)
    (original_query : String) (messages : List String) : String × Option String :=
  let content := roleClean content0 agent_name all_agent_names
  if strContains content FINAL_ANSWER_MARKER then
    if isConsensus messages then
      match llmV content original_query with
      | (true, validated_content, _) => (validated_content, none)
      | (false, _, validation_feedback) =>
        (content, some ("Final answer format needs improvement: "
          ++ (match validation_feedback with | some s => s | none => "None")))
    else
      (trimStr (removeAll FINAL_ANSWER_MARKER content),
       some "Final answer can only be provided after three consecutive agents have voted to submit")
  else if hasVote content then
    if messages.length < 3 ∧ messages.any hasVote = false then
      (content, some "Please engage in thorough discussion before voting to submit")
    else if isConsensus messages then
      (content, some "Consensus reached! As the last agent to vote, please provide the final answer following the format guidelines.")
    else
      (content, none)
  else
    (content, none)

/-! ## The agent node (`main.py` lines 102-174) -/

/-- `state["messages"][0].split(":", 1)[1].strip()` (`main.py` line 108):
`none` models the `IndexError` on an empty log or a first entry without a
colon. -/
def origQueryOf (messages : List String) : Option String :=
  match messages with
  | [] => none
  | first :: _ => (afterFirstColon first).map trimStr

/-- `main.py` lines 136-139: drop a leading `"{name}: "` echo from the
generated text. -/
def stripOwnName (name content : String) : String :=
  if strStarts content (name ++ ": ") then
    trimStr ⟨content.data.drop (name ++ ": ").data.length⟩
  else content

/-- The body of the node created by `create_agent_node` (`main.py` lines
104-172), as a state transformer. `content0` is the text produced by the
external generation capability, `llmV` the external format validator, and
`saveResult` the outcome of `save_conversation_to_csv` (`some path` on
success, `none` when the persistence collaborator raises). `Except.error`
models an uncaught Python exception: the node returns no new state. -/
def agent_node (llmV : String → String → Bool × String × Option String)
    (cfg : AgentConfig) (content0 : String) (saveResult : Option String)
    (st : AgentState) : Except String AgentState :=
  match origQueryOf st.messages with
  | none => Except.error "IndexError"
  | some original_query =>
    let content1 := stripOwnName cfg.name content0
    let all_agent_names := st.agents.map (fun a => a.name)
    match validate_message llmV content1 cfg.name all_agent_names original_query st.messages with
    | (_, some feedback) =>
      Except.ok ⟨st.messages ++ ["Validation Feedback: " ++ feedback],
        st.phase, st.iteration, st.csv_file, st.agents⟩
    | (content, none) =>
      match saveResult with
      | none => Except.error "Error saving conversation to CSV"
      | some csv_file =>
        Except.ok ⟨st.messages ++ [cfg.name ++ ": " ++ content],
          st.phase, st.iteration + 1, some csv_file, st.agents⟩

/-! ## The Turn Scheduler: `should_continue` (`main.py` lines 176-206) -/

/-- `should_continue` (`main.py` lines 176-206). The result is the next
node name; `none` models the uncaught `StopIteration` raised by
`next(i for i, a in enumerate(agents) if a["name"] == current_agent)`
when no roster agent carries the recovered speaker name, and also the
`IndexError` of `agents[0]` on an empty roster. -/
def should_continue (st : AgentState) : Option String :=
  match st.messages.getLast? with
  | none => st.agents.head?.map (fun a => a.name)
  | some last_message =>
    let current_agent := splitColonFst last_message
    if current_agent = "Human" ∨ current_agent = "User Query" then
      st.agents.head?.map (fun a => a.name)
    else if MAX_ITERATIONS ≤ st.iteration then
      some "human"
    else if strContains last_message FINAL_ANSWER_MARKER then
      some "human"
    else
      match st.agents.findIdx? (fun a => a.name == current_agent) with
      | none => none
      | some current_idx =>
        (st.agents.get? ((current_idx + 1) % st.agents.length)).map (fun a => a.name)

/-! ## The human node and the orchestrator loop (`main.py` lines 208-225, 227-256, 326-397) -/

/-- The state update of the `human_feedback` node on non-empty feedback
(`main.py` lines 217-225; the interrupt handler at lines 357-364 performs
the same update). -/
def human_feedback (st : AgentState) (feedback : String) : AgentState :=
  ⟨st.messages ++ ["Human: " ++ feedback], st.phase + 1, 0, st.csv_file, st.agents⟩

/-- The initial state built in `main` (`main.py` lines 286-302); the
`csv_file` field is whatever the initial logging call produced. -/
def initState (query : String) (agents : List AgentConfig) (csv : Option String) : AgentState :=
  ⟨["User Query: " ++ query], 1, 0, csv, agents⟩

/-- What a transition appended: an accepted agent turn, a rejected turn
(validation feedback appended instead), or human feedback. -/
inductive StepLabel where
  | turn (name : String)
  | reject (name : String) (feedback : String)
  | human (feedback : String)

/-- One step of the compiled workflow (`main.py` lines 227-256): the
conditional edge `should_continue` picks the node, the node updates the
state. An agent step requires a successful persistence call (a failed one
raises and produces no new state); the human step follows a non-empty
feedback answer to the interrupt. -/
inductive OrchStep : AgentState → StepLabel → AgentState → Prop where
  | turn (llmV : String → String → Bool × String × Option String)
      (cfg : AgentConfig) (content0 csv_file original_query content : String)
      {st : AgentState} :
      cfg ∈ st.agents →
      should_continue st = some cfg.name →
      origQueryOf st.messages = some original_query →
      validate_message llmV (stripOwnName cfg.name content0) cfg.name
        (st.agents.map (fun a => a.name)) original_query st.messages = (content, none) →
      OrchStep st (StepLabel.turn cfg.name)
        ⟨st.messages ++ [cfg.name ++ ": " ++ content],
         st.phase, st.iteration + 1, some csv_file, st.agents⟩
  | reject (llmV : String → String → Bool × String × Option String)
      (cfg : AgentConfig) (content0 original_query content feedback : String)
      {st : AgentState} :
      cfg ∈ st.agents →
      should_continue st = some cfg.name →
      origQueryOf st.messages = some original_query →
      validate_message llmV (stripOwnName cfg.name content0) cfg.name
        (st.agents.map (fun a => a.name)) original_query st.messages = (content, some feedback) →
      OrchStep st (StepLabel.reject cfg.name feedback)
        ⟨st.messages ++ ["Validation Feedback: " ++ feedback],
         st.phase, st.iteration, st.csv_file, st.agents⟩
  | human (feedback : String) {st : AgentState} :
      feedback ≠ "" →
      should_continue st = some "human" →
      OrchStep st (StepLabel.human feedback) (human_feedback st feedback)

/-- States the orchestrator loop can reach for a given query and roster. -/
inductive Reachable (query : String) (agents : List AgentConfig) : AgentState → Prop where
  | init (csv : Option String) : Reachable query agents (initState query agents csv)
  | step {st : AgentState} {l : StepLabel} {st' : AgentState} :
      Reachable query agents st → OrchStep st l st' → Reachable query agents st'

/-- A roster name that cannot be confused with the reserved speaker labels
of `should_continue` and contains no colon, so that
`"{name}: {text}".split(":")[0]` recovers it. The roster built in `main`
satisfies this. -/
def wfName (n : String) : Prop :=
  n ≠ "Human" ∧ n ≠ "User Query" ∧ n ≠ "human" ∧ ∀ c ∈ n.data, c ≠ ':'

/-- Every roster name is well formed. -/
def wfRoster (agents : List AgentConfig) : Prop :=
  ∀ cfg ∈ agents, wfName cfg.name

instance : DecidablePred wfName := fun n => by unfold wfName; infer_instance

instance (agents : List AgentConfig) : Decidable (wfRoster agents) := by
  unfold wfRoster; infer_instance

/-! ## The roster built in `main` (`main.py` lines 268-284) -/

/-- First roster entry of `main`. -/
def researchCfg : AgentConfig :=
  ⟨"Research Agent",
   "You are a research agent focused on gathering accurate information and providing well-researched responses.",
   0.5⟩

/-- Second roster entry of `main`. -/
def criticalCfg : AgentConfig :=
  ⟨"Critical Agent",
   "You are a critical agent focused on analyzing and improving responses, ensuring logical consistency and identifying potential issues.",
   0⟩

/-- Third roster entry of `main`. -/
def creativeCfg : AgentConfig :=
  ⟨"Creative Agent",
   "You are a creative agent focused on generating innovative and engaging responses.",
   1⟩

/-- The agent list of `main`. -/
def mainAgents : List AgentConfig := [researchCfg, criticalCfg, creativeCfg]

/-- The roster names of `main`. -/
def mainNames : List String := ["Research Agent", "Critical Agent", "Creative Agent"]

/-- A concrete instantiation of the external format validator, used to
instantiate witnesses. -/
def llmV0 : String → String → Bool × String × Option String :=
  fun content _ => (true, content, none)

/-! ## Concrete states used in the closed theorems -/

/-- A reachable state whose last log entry is a validation-feedback
utterance: the Research Agent opened with a premature vote and was
rejected by the gate. -/
def c1State : AgentState :=
  ⟨["User Query: quick task",
    "Validation Feedback: Please engage in thorough discussion before voting to submit"],
   1, 0, none, mainAgents⟩

/-- A log in which an intervening validation-feedback entry separates the
three vote utterances. -/
def c2Log : List String :=
  ["User Query: plan",
   "Research Agent: Good. I vote to submit",
   "Validation Feedback: Please address the following issues",
   "Critical Agent: Yes. I vote to submit",
   "Creative Agent: Sure. I vote to submit"]

/-- A log whose three most recent substantive entries are unanimous vote
utterances. -/
def c3Log : List String :=
  ["User Query: design a plan",
   "Research Agent: Looks complete. I vote to submit",
   "Critical Agent: Agreed fully. I vote to submit",
   "Creative Agent: Wonderful. I vote to submit"]

/-- The state after the three votes of `c3Log` (three agent turns taken). -/
def c3State : AgentState := ⟨c3Log, 1, 3, some "log.csv", mainAgents⟩

/-- A two-entry log (the query plus a single agent vote). -/
def c8Log : List String :=
  ["User Query: plan", "Research Agent: I vote to submit"]

/-- A state at the iteration ceiling whose scheduler decision is `"human"`. -/
def c6SrcState : AgentState :=
  ⟨["User Query: quick task", "Research Agent: halting here"], 1, 20, some "log.csv", mainAgents⟩

/-- The state after the human supplies feedback in `c6SrcState`. -/
def c6DstState : AgentState := human_feedback c6SrcState "Add more examples"

/-- The inductive invariant of the orchestrator loop: the log is never
empty, the roster is fixed, a log ending in a human or user-query entry
has `iteration = 0`, and `iteration` never exceeds the ceiling. -/
def LoopInv (agents : List AgentConfig) (st : AgentState) : Prop :=
  st.messages ≠ [] ∧ st.agents = agents ∧
  ((splitColonFst (st.messages.getLastD "") = "Human" ∨
    splitColonFst (st.messages.getLastD "") = "User Query") → st.iteration = 0) ∧
  st.iteration ≤ MAX_ITERATIONS

/-- The detector's semantics stated over the forward log: at least three
substantive entries exist, and the last three of them in log order — with
any excluded (feedback/human/query) entries in between simply skipped —
each contain the vote phrase. -/
def isConsensusSpec (messages : List String) : Prop :=
  3 ≤ (messages.filter isSubstantive).length ∧
  ∀ m ∈ (messages.filter isSubstantive).drop ((messages.filter isSubstantive).length - 3),
    hasVote m = true

/-! ## Helper lemmas -/

lemma takeWhile_until_colon (l r : List Char) (hl : ∀ c ∈ l, c ≠ ':') :
    (l ++ ':' :: r).takeWhile (fun c => c != ':') = l := by
  induction l with
  | nil => simp [List.takeWhile_cons]
  | cons a as ih =>
    have ha : (a != ':') = true := bne_iff_ne.mpr (hl a (by simp))
    simp only [List.cons_append, List.takeWhile_cons, ha, if_true]
    rw [ih (fun c hc => hl c (by simp [hc]))]

lemma splitColonFst_name (name rest : String) (h : ∀ c ∈ name.data, c ≠ ':') :
    splitColonFst (name ++ ": " ++ rest) = name := by
  unfold splitColonFst
  have hdata : (name ++ ": " ++ rest).data = name.data ++ ':' :: ' ' :: rest.data := by
    rw [String.data_append, String.data_append, List.append_assoc]; rfl
  rw [hdata, takeWhile_until_colon name.data (' ' :: rest.data) h]

lemma getLastD_concat (l : List String) (a d : String) : (l ++ [a]).getLastD d = a := by
  rw [List.getLastD_eq_getLast?, List.getLast?_concat]
  rfl

/-- Any log passing the consensus test contains a message with the vote
phrase. -/
lemma any_vote_of_consensus {messages : List String} (h : isConsensus messages = true) :
    messages.any hasVote = true := by
  unfold isConsensus at h
  rcases Bool.and_eq_true_iff.mp h with ⟨hlen, hall⟩
  have h3 : (voteMessages messages).length = 3 := by simpa using hlen
  have hne : voteMessages messages ≠ [] := by
    intro hnil; rw [hnil] at h3; simp at h3
  obtain ⟨m, hm⟩ := List.exists_mem_of_ne_nil _ hne
  have hmv : hasVote m = true := List.all_eq_true.mp hall m hm
  have hmem : m ∈ messages := by
    have := List.mem_of_mem_take (l := messages.reverse.filter isSubstantive) hm
    exact List.mem_reverse.mp (List.mem_of_mem_filter this)
  exact List.any_eq_true.mpr ⟨m, hmem, hmv⟩


/-! ## C1 -/

/-- C1: the claim says that after a validation-feedback utterance the Turn
Scheduler selects the agent whose candidate was rejected. In the code,
`should_continue` recovers the speaker `"Validation Feedback"` from the
last log entry and `next(i for i, a in enumerate(agents) ...)` raises an
uncaught `StopIteration` (modelled by `none`): the scheduler fails instead
of returning `"Research Agent"`. The state is reachable: the Research
Agent opens with a premature vote, which the gate rejects. -/
theorem c1_feedback_turn_scheduler_fails :
    Reachable "quick task" mainAgents c1State ∧ should_continue c1State = none := by
  constructor
  · exact Reachable.step (Reachable.init none)
      (OrchStep.reject llmV0 researchCfg "I vote to submit" "quick task"
        "I vote to submit" "Please engage in thorough discussion before voting to submit"
        (show researchCfg ∈ mainAgents from List.mem_cons_self _ _) rfl rfl rfl)
  · rfl

/-! ## C2 -/

/-- C2 counterexample: the claim says an intervening validation-feedback
utterance breaks the vote streak (vote, FEEDBACK, vote, vote is not a
streak); the code merely skips excluded entries, so the detector returns
`true` on exactly that log. -/
theorem c2_intervening_feedback_counterexample : isConsensus c2Log = true := rfl

/-- C3 counterexample: the Research Agent's candidate contains the vote
phrase and the three most recent substantive utterances are unanimous
votes, so the candidate's vote completes a three-message unanimous window;
the gate returns the consensus reminder as non-null feedback, and the
agent node therefore withholds the vote utterance, appends a
validation-feedback entry instead, and leaves `iteration` unchanged —
contradicting "the turn is never withheld or replaced solely to deliver
the reminder, and iteration advances". -/
theorem c3_reminder_withholds_turn_counterexample :
    validate_message llmV0 "All good. I vote to submit" "Research Agent" mainNames
        "design a plan" c3Log
      = ("All good. I vote to submit",
         some "Consensus reached! As the last agent to vote, please provide the final answer following the format guidelines.") ∧
    agent_node llmV0 researchCfg "All good. I vote to submit" (some "log2.csv") c3State
      = Except.ok
          ⟨c3Log ++ ["Validation Feedback: Consensus reached! As the last agent to vote, please provide the final answer following the format guidelines."],
           1, 3, some "log.csv", mainAgents⟩ :=
  ⟨rfl, rfl⟩

/-! ## C8 -/

/-- C8 counterexample: the candidate contains the vote phrase and only 2
utterances have occurred since session start, yet the gate returns no
feedback, because the code additionally skips the premature-voting check
whenever any earlier message already contains the vote phrase. -/
theorem c8_premature_voting_counterexample :
    validate_message llmV0 "I agree. I vote to submit" "Critical Agent" mainNames
        "plan" c8Log
      = ("I agree. I vote to submit", none) := rfl

/-! ## C9 -/

/-- C9 counterexample: when the persistence call fails (`saveResult =
none`), the agent step does not complete with the validated utterance
appended — `save_conversation_to_csv` re-raises after logging and
`agent_node` has no handler, so the step aborts with the exception. -/
theorem c9_save_failure_counterexample :
    agent_node llmV0 researchCfg "Hello everyone" none (initState "quick task" mainAgents none)
      = Except.error "Error saving conversation to CSV" := rfl

/-! ## C5 -/

/-- C5: whenever the candidate text (after the role-leakage step, which
the gate applies first) contains the completion marker but the three most
recent substantive utterances are not a unanimous vote streak, the gate
strips the marker and returns the corrective feedback. -/
theorem c5_premature_completion
    (llmV : String → String → Bool × String × Option String)
    (content0 agent_name : String) (all_agent_names : List String)
    (original_query : String) (messages : List String)
    (hmark : strContains (roleClean content0 agent_name all_agent_names) FINAL_ANSWER_MARKER = true)
    (hcons : isConsensus messages = false) :
    validate_message llmV content0 agent_name all_agent_names original_query messages
      = (trimStr (removeAll FINAL_ANSWER_MARKER (roleClean content0 agent_name all_agent_names)),
         some "Final answer can only be provided after three consecutive agents have voted to submit") := by
  simp [validate_message, hmark, hcons]

/-- C5 witness: a lone `"Done [FINAL_ANSWER]"` at session start yields the
feedback, not termination, and the marker is stripped. -/
theorem c5_premature_completion_witness :
    strContains (roleClean "Done [FINAL_ANSWER]" "Research Agent" mainNames) FINAL_ANSWER_MARKER = true ∧
    isConsensus ["User Query: plan the app"] = false ∧
    validate_message llmV0 "Done [FINAL_ANSWER]" "Research Agent" mainNames
        "plan the app" ["User Query: plan the app"]
      = ("Done", some "Final answer can only be provided after three consecutive agents have voted to submit") :=
  ⟨rfl, rfl,
    (c5_premature_completion llmV0 "Done [FINAL_ANSWER]" "Research Agent" mainNames
      "plan the app" ["User Query: plan the app"] rfl rfl).trans rfl⟩

/-! ## C8 (amended) -/

/-- C8 amended: the gate returns the insufficient-discussion feedback for a
vote-phrase candidate (without completion marker) exactly under the code's
guard: the raw log (counted from session start, never reset at feedback
rounds) has fewer than 3 entries AND no earlier entry already contains the
vote phrase. -/
theorem c8_amended_premature_voting
    (llmV : String → String → Bool × String × Option String)
    (content0 agent_name : String) (all_agent_names : List String)
    (original_query : String) (messages : List String)
    (hmark : strContains (roleClean content0 agent_name all_agent_names) FINAL_ANSWER_MARKER = false)
    (hvote : hasVote (roleClean content0 agent_name all_agent_names) = true)
    (hlen : messages.length < 3)
    (hnov : messages.any hasVote = false) :
    validate_message llmV content0 agent_name all_agent_names original_query messages
      = (roleClean content0 agent_name all_agent_names,
         some "Please engage in thorough discussion before voting to submit") := by
  simp [validate_message, hmark, hvote, hlen, hnov]

/-- C8 amended witness: a first-utterance vote is rejected with the
insufficient-discussion feedback. -/
theorem c8_amended_premature_voting_witness :
    strContains (roleClean "I vote to submit" "Research Agent" mainNames) FINAL_ANSWER_MARKER = false ∧
    hasVote (roleClean "I vote to submit" "Research Agent" mainNames) = true ∧
    (["User Query: quick task"] : List String).length < 3 ∧
    (["User Query: quick task"] : List String).any hasVote = false ∧
    validate_message llmV0 "I vote to submit" "Research Agent" mainNames
        "quick task" ["User Query: quick task"]
      = ("I vote to submit", some "Please engage in thorough discussion before voting to submit") :=
  ⟨rfl, rfl, by decide, rfl,
    (c8_amended_premature_voting llmV0 "I vote to submit" "Research Agent" mainNames
      "quick task" ["User Query: quick task"] rfl rfl (by decide) rfl).trans rfl⟩

/-! ## C3 (amended) -/

/-- C3 amended: when the candidate contains the vote phrase (and no
completion marker) and the three most recent substantive utterances of the
prior log are already unanimous votes, the gate returns the
consensus-reached reminder as NON-NULL feedback — so the orchestrator
appends a validation-feedback utterance instead of the vote utterance and
does not advance `iteration` (the reminder withholds the turn; it is not
merely informational). -/
theorem c3_amended_consensus_reminder
    (llmV : String → String → Bool × String × Option String)
    (content0 agent_name : String) (all_agent_names : List String)
    (original_query : String) (messages : List String)
    (hmark : strContains (roleClean content0 agent_name all_agent_names) FINAL_ANSWER_MARKER = false)
    (hvote : hasVote (roleClean content0 agent_name all_agent_names) = true)
    (hcons : isConsensus messages = true) :
    validate_message llmV content0 agent_name all_agent_names original_query messages
      = (roleClean content0 agent_name all_agent_names,
         some "Consensus reached! As the last agent to vote, please provide the final answer following the format guidelines.") := by
  have hany := any_vote_of_consensus hcons
  simp [validate_message, hmark, hvote, hcons, hany]

/-- C3 amended witness: a fourth consecutive vote triggers the reminder as
feedback. -/
theorem c3_amended_consensus_reminder_witness :
    strContains (roleClean "Indeed. I vote to submit" "Critical Agent" mainNames) FINAL_ANSWER_MARKER = false ∧
    hasVote (roleClean "Indeed. I vote to submit" "Critical Agent" mainNames) = true ∧
    isConsensus c3Log = true ∧
    validate_message llmV0 "Indeed. I vote to submit" "Critical Agent" mainNames
        "design a plan" c3Log
      = ("Indeed. I vote to submit",
         some "Consensus reached! As the last agent to vote, please provide the final answer following the format guidelines.") :=
  ⟨rfl, rfl, rfl,
    (c3_amended_consensus_reminder llmV0 "Indeed. I vote to submit" "Critical Agent" mainNames
      "design a plan" c3Log rfl rfl rfl).trans rfl⟩

/-! ## C10 -/

/-- C10: when the role-leakage truncation of the candidate (another roster
name followed by a colon at or near the start) leaves the empty string,
the gate returns `("", none)` — the empty result is accepted silently,
never converted into corrective feedback — and the agent node appends the
utterance `"{name}: "` with empty text and increments `iteration`. -/
theorem c10_role_leak_empty_accepted
    (llmV : String → String → Bool × String × Option String)
    (cfg : AgentConfig) (content0 csv_file original_query : String) (st : AgentState)
    (hq : origQueryOf st.messages = some original_query)
    (hclean : roleClean (stripOwnName cfg.name content0) cfg.name
        (st.agents.map (fun a => a.name)) = "") :
    validate_message llmV (stripOwnName cfg.name content0) cfg.name
        (st.agents.map (fun a => a.name)) original_query st.messages = ("", none) ∧
    agent_node llmV cfg content0 (some csv_file) st
      = Except.ok ⟨st.messages ++ [cfg.name ++ ": "], st.phase, st.iteration + 1,
          some csv_file, st.agents⟩ := by
  have hm : strContains "" FINAL_ANSWER_MARKER = false := rfl
  have hv : hasVote "" = false := rfl
  have hval : validate_message llmV (stripOwnName cfg.name content0) cfg.name
      (st.agents.map (fun a => a.name)) original_query st.messages = ("", none) := by
    simp [validate_message, hclean, hm, hv]
  refine ⟨hval, ?_⟩
  simp [agent_node, hq, hval, String.append_empty]

/-- C10 witness: a candidate that opens with another roster member's
speaker marker is truncated to the empty string, accepted, appended as an
empty utterance, and the iteration advances. -/
theorem c10_role_leak_empty_witness :
    origQueryOf (initState "quick task" mainAgents none).messages = some "quick task" ∧
    roleClean (stripOwnName researchCfg.name "Critical Agent: we should add flashcards")
        researchCfg.name ((initState "quick task" mainAgents none).agents.map (fun a => a.name)) = "" ∧
    validate_message llmV0
        (stripOwnName researchCfg.name "Critical Agent: we should add flashcards")
        researchCfg.name
        ((initState "quick task" mainAgents none).agents.map (fun a => a.name))
        "quick task" (initState "quick task" mainAgents none).messages = ("", none) ∧
    agent_node llmV0 researchCfg "Critical Agent: we should add flashcards" (some "log.csv")
        (initState "quick task" mainAgents none)
      = Except.ok ⟨["User Query: quick task", "Research Agent: "], 1, 1, some "log.csv", mainAgents⟩ := by
  have h := c10_role_leak_empty_accepted llmV0 researchCfg
    "Critical Agent: we should add flashcards" "log.csv" "quick task"
    (initState "quick task" mainAgents none) rfl rfl
  exact ⟨rfl, rfl, h.1, h.2.trans rfl⟩

/-! ## C4 -/

lemma should_continue_of_getLast (st : AgentState) (last_message : String)
    (h : st.messages.getLast? = some last_message) :
    should_continue st =
      (if splitColonFst last_message = "Human" ∨ splitColonFst last_message = "User Query" then
        st.agents.head?.map (fun a => a.name)
      else if MAX_ITERATIONS ≤ st.iteration then some "human"
      else if strContains last_message FINAL_ANSWER_MARKER then some "human"
      else
        match st.agents.findIdx? (fun a => a.name == splitColonFst last_message) with
        | none => none
        | some current_idx =>
          (st.agents.get? ((current_idx + 1) % st.agents.length)).map (fun a => a.name)) := by
  unfold should_continue
  rw [h]

lemma findIdx?_name_self (R : List AgentConfig) (i : Nat) (hi : i < R.length)
    (hnd : (R.map (fun a => a.name)).Nodup) :
    R.findIdx? (fun a => a.name == (R.get ⟨i, hi⟩).name) = some i := by
  induction R generalizing i with
  | nil => simp at hi
  | cons a as ih =>
    rw [List.map_cons, List.nodup_cons] at hnd
    cases i with
    | zero => simp [List.findIdx?_cons]
    | succ n =>
      have hn : n < as.length := by simpa using hi
      have htgt : ((a :: as).get ⟨n + 1, hi⟩) = as.get ⟨n, hn⟩ := rfl
      have hmem : (as.get ⟨n, hn⟩).name ∈ as.map (fun a => a.name) :=
        List.mem_map_of_mem _ (as.get_mem n hn)
      have hne : (a.name == (as.get ⟨n, hn⟩).name) = false := by
        refine beq_eq_false_iff_ne.mpr ?_
        intro he
        exact hnd.1 (he ▸ hmem)
      rw [htgt, List.findIdx?_cons, hne]
      simp only [List.findIdx?_succ, ih n hn hnd.2, Option.map_some']
      simp

lemma name_ne_of_nodup (R : List AgentConfig) (i j : Nat) (hi : i < R.length)
    (hj : j < R.length) (hnd : (R.map (fun a => a.name)).Nodup) (hij : i ≠ j) :
    (R.get ⟨i, hi⟩).name ≠ (R.get ⟨j, hj⟩).name := by
  intro he
  have hi2 : i < (R.map (fun a => a.name)).length := by simpa using hi
  have hj2 : j < (R.map (fun a => a.name)).length := by simpa using hj
  have hg : (R.map (fun a => a.name)).get ⟨i, hi2⟩ = (R.map (fun a => a.name)).get ⟨j, hj2⟩ := by
    simp only [List.getElem_map, List.get_eq_getElem]
    exact he
  have := (List.Nodup.get_inj_iff hnd).mp hg
  exact hij (by simpa using this)

/-- C4: when the most recent utterance is an agent turn, the iteration
ceiling is not reached and the utterance carries no completion marker, the
scheduler returns exactly the roster entry after the current speaker,
wrapping modulo the roster size; for rosters of size at least 2 this is a
different index and (names being distinct) a different speaker, so the
rotation never skips and never repeats a speaker twice in a row. -/
theorem c4_round_robin (st : AgentState) (i : Nat) (text : String)
    (hi : i < st.agents.length)
    (hN : 2 ≤ st.agents.length)
    (hwf : wfRoster st.agents)
    (hnd : (st.agents.map (fun a => a.name)).Nodup)
    (hlast : st.messages.getLast? = some ((st.agents.get ⟨i, hi⟩).name ++ ": " ++ text))
    (hit : st.iteration < MAX_ITERATIONS)
    (hmark : strContains ((st.agents.get ⟨i, hi⟩).name ++ ": " ++ text) FINAL_ANSWER_MARKER = false) :
    should_continue st = (st.agents.get? ((i + 1) % st.agents.length)).map (fun a => a.name) ∧
    (i + 1) % st.agents.length ≠ i ∧
    (st.agents.get? ((i + 1) % st.agents.length)).map (fun a => a.name)
      ≠ some ((st.agents.get ⟨i, hi⟩).name) := by
  have hwfn : wfName (st.agents.get ⟨i, hi⟩).name := hwf _ (st.agents.get_mem i hi)
  have hsplit : splitColonFst ((st.agents.get ⟨i, hi⟩).name ++ ": " ++ text)
      = (st.agents.get ⟨i, hi⟩).name :=
    splitColonFst_name _ _ hwfn.2.2.2
  have hlen0 : 0 < st.agents.length := by omega
  have hmod : (i + 1) % st.agents.length < st.agents.length := Nat.mod_lt _ hlen0
  have hne : (i + 1) % st.agents.length ≠ i := by
    rcases Nat.lt_or_ge (i + 1) st.agents.length with hcase | hcase
    · rw [Nat.mod_eq_of_lt hcase]; omega
    · have : i + 1 = st.agents.length := by omega
      rw [this, Nat.mod_self]; omega
  refine ⟨?_, hne, ?_⟩
  · rw [should_continue_of_getLast st _ hlast, hsplit]
    rw [if_neg, if_neg (by omega), if_neg (by rw [hmark]; exact Bool.false_ne_true)]
    · rw [findIdx?_name_self st.agents i hi hnd]
    · rintro (h1 | h2)
      · exact hwfn.1 h1
      · exact hwfn.2.1 h2
  · rw [List.get?_eq_get hmod, Option.map_some']
    intro h
    exact name_ne_of_nodup st.agents _ _ hmod hi hnd hne (Option.some.injEq _ _ ▸ h)

/-- C4 witness: from a state where the Research Agent (index 0 of the
3-agent roster of `main`) spoke last, the scheduler picks the Critical
Agent (index 1). -/
theorem c4_round_robin_witness :
    should_continue ⟨["User Query: quick task", "Research Agent: We need spaced repetition"],
        1, 1, some "log.csv", mainAgents⟩
      = some "Critical Agent" := by
  have h := c4_round_robin
    ⟨["User Query: quick task", "Research Agent: We need spaced repetition"],
      1, 1, some "log.csv", mainAgents⟩
    0 "We need spaced repetition" (by decide) (by decide) (by decide) (by decide)
    rfl (by decide) rfl
  exact h.1.trans rfl

/-! ## C6 -/

/-- C6: across every transition of the orchestrator loop, `phase`
increments by exactly 1 precisely on the human-feedback transition, which
also resets `iteration` to 0; an accepted agent turn increments
`iteration` (never producing 0) and leaves `phase` unchanged; a
validation-feedback turn leaves both unchanged. -/
theorem c6_phase_iteration_transitions (st : AgentState) (l : StepLabel) (st2 : AgentState)
    (h : OrchStep st l st2) :
    ((∃ fb, l = StepLabel.human fb) ↔ st2.phase = st.phase + 1) ∧
    (∀ fb, l = StepLabel.human fb → st2.iteration = 0) ∧
    (∀ n, l = StepLabel.turn n →
      st2.phase = st.phase ∧ st2.iteration = st.iteration + 1 ∧ st2.iteration ≠ 0) ∧
    (∀ n fb, l = StepLabel.reject n fb →
      st2.phase = st.phase ∧ st2.iteration = st.iteration) := by
  cases h with
  | turn llmV cfg content0 csv_file original_query content hmem hsc horig hval =>
    refine ⟨⟨?_, ?_⟩, ?_, ?_, ?_⟩
    · rintro ⟨fb, hfb⟩; cases hfb
    · intro hp; exact absurd hp (by simp)
    · rintro fb hfb; cases hfb
    · intro n hn; exact ⟨rfl, rfl, Nat.succ_ne_zero _⟩
    · rintro n fb hfb; cases hfb
  | reject llmV cfg content0 original_query content feedback hmem hsc horig hval =>
    refine ⟨⟨?_, ?_⟩, ?_, ?_, ?_⟩
    · rintro ⟨fb, hfb⟩; cases hfb
    · intro hp; exact absurd hp (by simp)
    · rintro fb hfb; cases hfb
    · intro n hn; cases hn
    · intro n fb hfb; exact ⟨rfl, rfl⟩
  | human fb hne hsc =>
    refine ⟨⟨fun _ => rfl, fun _ => ⟨fb, rfl⟩⟩, fun _ _ => rfl, ?_, ?_⟩
    · intro n hn; cases hn
    · intro n fb2 hfb; cases hfb


/-- C6 witness: on the concrete human-feedback transition, `phase` goes
from 1 to 2 and `iteration` resets to 0. -/
theorem c6_phase_iteration_witness :
    ((∃ fb, StepLabel.human "Add more examples" = StepLabel.human fb)
        ↔ c6DstState.phase = c6SrcState.phase + 1) ∧
    (∀ fb, StepLabel.human "Add more examples" = StepLabel.human fb → c6DstState.iteration = 0) ∧
    (∀ n, StepLabel.human "Add more examples" = StepLabel.turn n →
      c6DstState.phase = c6SrcState.phase ∧ c6DstState.iteration = c6SrcState.iteration + 1 ∧
      c6DstState.iteration ≠ 0) ∧
    (∀ n fb, StepLabel.human "Add more examples" = StepLabel.reject n fb →
      c6DstState.phase = c6SrcState.phase ∧ c6DstState.iteration = c6SrcState.iteration) :=
  c6_phase_iteration_transitions c6SrcState (StepLabel.human "Add more examples") c6DstState
    (OrchStep.human "Add more examples" (by decide) rfl)

/-! ## C7 -/


lemma exists_getLast_of_ne_nil {l : List String} (h : l ≠ []) :
    ∃ last, l.getLast? = some last := by
  cases hM : l.getLast? with
  | none => exact absurd (List.getLast?_eq_none_iff.mp hM) h
  | some last => exact ⟨last, rfl⟩

lemma loopInv_init (q : String) (agents : List AgentConfig) (csv : Option String) :
    LoopInv agents (initState q agents csv) :=
  ⟨by simp [initState], rfl, fun _ => rfl, by show 0 ≤ MAX_ITERATIONS; decide⟩

lemma loopInv_step {agents : List AgentConfig} (hwf : wfRoster agents)
    {st : AgentState} {l : StepLabel} {st2 : AgentState}
    (hinv : LoopInv agents st) (h : OrchStep st l st2) : LoopInv agents st2 := by
  obtain ⟨hne, hag, hHU, hle⟩ := hinv
  cases h with
  | turn llmV cfg content0 csv_file original_query content hmem hsc horig hval =>
    have hwfn : wfName cfg.name := hwf cfg (hag ▸ hmem)
    refine ⟨by simp, hag, ?_, ?_⟩
    · intro hcontra
      rw [getLastD_concat, splitColonFst_name _ _ hwfn.2.2.2] at hcontra
      rcases hcontra with h1 | h1
      · exact absurd h1 hwfn.1
      · exact absurd h1 hwfn.2.1
    · show st.iteration + 1 ≤ MAX_ITERATIONS
      obtain ⟨last, hM⟩ := exists_getLast_of_ne_nil hne
      rw [should_continue_of_getLast st last hM] at hsc
      by_cases h1 : splitColonFst last = "Human" ∨ splitColonFst last = "User Query"
      · have hz : st.iteration = 0 := by
          apply hHU
          rw [List.getLastD_eq_getLast?, hM]
          exact h1
        rw [hz]; decide
      · rw [if_neg h1] at hsc
        by_cases h2 : MAX_ITERATIONS ≤ st.iteration
        · rw [if_pos h2] at hsc
          exact absurd (Option.some.inj hsc).symm hwfn.2.2.1
        · omega
  | reject llmV cfg content0 original_query content feedback hmem hsc horig hval =>
    refine ⟨by simp, hag, ?_, hle⟩
    intro hcontra
    rw [getLastD_concat,
      show ("Validation Feedback: " ++ feedback : String)
        = "Validation Feedback" ++ ": " ++ feedback from rfl,
      splitColonFst_name "Validation Feedback" feedback (by decide)] at hcontra
    rcases hcontra with h1 | h1
    · exact absurd h1 (by decide)
    · exact absurd h1 (by decide)
  | human fb hne2 hsc =>
    refine ⟨by simp [human_feedback], hag, fun _ => rfl, by show 0 ≤ MAX_ITERATIONS; decide⟩

lemma loopInv_reachable (q : String) (agents : List AgentConfig) (hwf : wfRoster agents)
    (st : AgentState) (hr : Reachable q agents st) : LoopInv agents st := by
  induction hr with
  | init csv => exact loopInv_init q agents csv
  | step hr hstep ih => exact loopInv_step hwf ih hstep

/-- C7: in every reachable state, `iteration` never exceeds
`MAX_ITERATIONS`, and whenever the most recent utterance is by a roster
agent and the ceiling is reached the scheduler returns `"human"`. -/
theorem c7_iteration_bounded (q : String) (agents : List AgentConfig) (st : AgentState)
    (hwf : wfRoster agents) (hr : Reachable q agents st) :
    st.iteration ≤ MAX_ITERATIONS ∧
    ∀ cfg ∈ agents, splitColonFst (st.messages.getLastD "") = cfg.name →
      MAX_ITERATIONS ≤ st.iteration → should_continue st = some "human" := by
  obtain ⟨hne, hag, hHU, hle⟩ := loopInv_reachable q agents hwf st hr
  refine ⟨hle, ?_⟩
  intro cfg hcfg hname hit
  have hwfn : wfName cfg.name := hwf cfg hcfg
  obtain ⟨last, hM⟩ := exists_getLast_of_ne_nil hne
  have hlast : st.messages.getLastD "" = last := by
    rw [List.getLastD_eq_getLast?, hM]; rfl
  rw [hlast] at hname
  rw [should_continue_of_getLast st last hM,
    if_neg (by rw [hname]; rintro (h1 | h1); exacts [hwfn.1 h1, hwfn.2.1 h1]),
    if_pos hit]

/-- C7 witness: the initial state with the roster of `main` satisfies both
conclusions. -/
theorem c7_iteration_bounded_witness :
    (initState "quick task" mainAgents none).iteration ≤ MAX_ITERATIONS ∧
    ∀ cfg ∈ mainAgents,
      splitColonFst ((initState "quick task" mainAgents none).messages.getLastD "") = cfg.name →
      MAX_ITERATIONS ≤ (initState "quick task" mainAgents none).iteration →
      should_continue (initState "quick task" mainAgents none) = some "human" :=
  c7_iteration_bounded "quick task" mainAgents (initState "quick task" mainAgents none)
    (by decide) (Reachable.init none)

/-! ## C2 (amended) -/


/-- C2 amended: the detector returns true iff the three most recent
substantive utterances each contain the vote phrase case-insensitively;
intervening validation-feedback or human entries are skipped and do NOT
break the streak. -/
theorem c2_amended_consensus_iff (messages : List String) :
    isConsensus messages = true ↔ isConsensusSpec messages := by
  unfold isConsensus isConsensusSpec voteMessages
  rw [List.filter_reverse, List.take_reverse]
  simp only [Bool.and_eq_true, beq_iff_eq, List.length_reverse, List.length_drop,
    List.all_eq_true, List.mem_reverse]
  constructor
  · rintro ⟨hlen, hall⟩
    exact ⟨by omega, hall⟩
  · rintro ⟨hlen, hall⟩
    exact ⟨by omega, hall⟩

/-! ## C9 (amended) -/

/-- C9 amended: a persistence failure aborts the agent step. Whenever the
gate accepts the utterance (feedback `none`) and the recording call
raises, `agent_node` propagates the exception and returns no updated
state: the utterance is not appended and the prior state is untouched (the
outer loop keeps its last valid state and ends the session only after
`MAX_ERRORS` consecutive failures). -/
theorem c9_amended_save_failure_aborts_step
    (llmV : String → String → Bool × String × Option String)
    (cfg : AgentConfig) (content0 original_query content : String) (st : AgentState)
    (hq : origQueryOf st.messages = some original_query)
    (hval : validate_message llmV (stripOwnName cfg.name content0) cfg.name
        (st.agents.map (fun a => a.name)) original_query st.messages = (content, none)) :
    agent_node llmV cfg content0 none st = Except.error "Error saving conversation to CSV" := by
  simp [agent_node, hq, hval]

/-- C9 amended witness: a concrete accepted utterance whose recording call
fails produces the error, not a state with the utterance appended. -/
theorem c9_amended_save_failure_witness :
    origQueryOf (initState "quick task" mainAgents none).messages = some "quick task" ∧
    validate_message llmV0 (stripOwnName researchCfg.name "Greetings team") researchCfg.name
        ((initState "quick task" mainAgents none).agents.map (fun a => a.name))
        "quick task" (initState "quick task" mainAgents none).messages = ("Greetings team", none) ∧
    agent_node llmV0 researchCfg "Greetings team" none (initState "quick task" mainAgents none)
      = Except.error "Error saving conversation to CSV" :=
  ⟨rfl, rfl,
    c9_amended_save_failure_aborts_step llmV0 researchCfg "Greetings team" "quick task"
      "Greetings team" (initState "quick task" mainAgents none) rfl rfl⟩
